import Mathlib

set_option allowUnsafeReducibility true
attribute [semireducible] Rat.add Rat.mul Rat.inv Rat.sub

/-!
Shallow embedding of the nfl_data_py core (src/nfl_data_py/__init__.py):
the seasonal aggregation / derived-metrics engine (`import_seasonal_data`)
and the multi-year fetch-merge-concatenate pipeline
(`import_pbp_data`, `import_weekly_data`, and the shared downcast step),
together with theorems settling the specification claims about them.

Numeric cells are modelled as IEEE-style extended values: a finite value is
an exact rational, and the special values NaN and signed infinity are
explicit constructors, with addition, multiplication and division following
the IEEE rules numpy/pandas use (0/0 is NaN, x/0 for nonzero x is signed
infinity, NaN propagates).  Sums of finite inputs stay finite, so the
season totals are plain rationals and only the derived ratio metrics need
the extended values.
-/

namespace NflDataPy

/-- Extended floating-point value: NaN, signed infinity (`pos = true` for
positive infinity), or a finite rational. -/
inductive FVal where
  | nan : FVal
  | inf (pos : Bool) : FVal
  | fin (q : ℚ) : FVal
deriving DecidableEq

/-- IEEE-style addition on extended values, as numpy/pandas perform it on
float columns: NaN propagates, infinities of equal sign absorb finite
values, and opposite infinities give NaN. -/
def FVal.add : FVal → FVal → FVal
  | .nan, _ => .nan
  | _, .nan => .nan
  | .inf s, .inf t => if s = t then .inf s else .nan
  | .inf s, .fin _ => .inf s
  | .fin _, .inf t => .inf t
  | .fin a, .fin b => .fin (a + b)

/-- IEEE-style multiplication on extended values: NaN propagates,
infinity times zero is NaN, signs combine. -/
def FVal.mul : FVal → FVal → FVal
  | .nan, _ => .nan
  | _, .nan => .nan
  | .inf s, .inf t => .inf (s = t)
  | .inf s, .fin b => if b = 0 then .nan else .inf (s = decide (0 < b))
  | .fin a, .inf t => if a = 0 then .nan else .inf (decide (0 < a) = t)
  | .fin a, .fin b => .fin (a * b)

/-- IEEE-style division on extended values, matching the numpy/pandas
semantics used by the pandas Series divisions in `import_seasonal_data`:
0/0 is NaN, x/0 for nonzero finite x is infinity carrying the sign of x,
inf/inf is NaN, and a finite value divided by infinity is 0. -/
def FVal.div : FVal → FVal → FVal
  | .nan, _ => .nan
  | _, .nan => .nan
  | .inf _, .inf _ => .nan
  | .inf s, .fin b => if b = 0 then .inf s else .inf (s = decide (0 < b))
  | .fin _, .inf _ => .fin 0
  | .fin a, .fin b =>
      if b = 0 then (if a = 0 then .nan else .inf (decide (0 < a)))
      else .fin (a / b)

/-- Multiplication on extended values is commutative (used to align the
code's `x * 1.5` with the spec's `1.5 × x`). -/
theorem FVal.mul_commutes (a b : FVal) : FVal.mul a b = FVal.mul b a := by
  cases a <;> cases b <;>
    simp [FVal.mul, mul_comm] <;>
    first
      | rfl
      | exact eq_comm
      | (split <;> simp [eq_comm])

/-- One weekly player-stat row, restricted to the columns
`import_seasonal_data` reads (the real parquet files carry more columns;
they do not enter any claim).  Numeric stats are exact rationals. -/
structure WeeklyRow where
  player_id : String
  player_name : String
  recent_team : String
  season : Int
  week : Int
  season_type : String
  attempts : ℚ
  completions : ℚ
  passing_yards : ℚ
  passing_tds : ℚ
  passing_air_yards : ℚ
  passing_yards_after_catch : ℚ
  passing_first_downs : ℚ
  carries : ℚ
  rushing_yards : ℚ
  rushing_tds : ℚ
  rushing_first_downs : ℚ
  rushing_2pt_conversions : ℚ
  receptions : ℚ
  targets : ℚ
  receiving_yards : ℚ
  receiving_tds : ℚ
  receiving_air_yards : ℚ
  receiving_yards_after_catch : ℚ
  receiving_first_downs : ℚ
  receiving_epa : ℚ
  fantasy_points_ppr : ℚ
deriving DecidableEq

/-- Season-type filter of `import_seasonal_data`:
`if s_type != 'ALL': data = data[data['season_type'] == s_type]`. -/
def filterSeasonType (s_type : String) (data : List WeeklyRow) : List WeeklyRow :=
  if s_type = "ALL" then data
  else data.filter (fun r => decide (r.season_type = s_type))

/-- Team-week passing volume aggregate row (the `pgstats` frame): one row
per (recent_team, season, week), with the renamed summed columns. -/
structure TeamWeekAgg where
  recent_team : String
  season : Int
  week : Int
  atts : ℚ
  comps : ℚ
  p_yds : ℚ
  p_tds : ℚ
  p_ayds : ℚ
  p_yac : ℚ
  p_fds : ℚ
  ppr_pts : ℚ
deriving DecidableEq

/-- Group keys of the `pgstats` groupby: the distinct
(recent_team, season, week) triples of the filtered data. -/
def teamWeekKeys (data : List WeeklyRow) : List (String × Int × Int) :=
  (data.map (fun r => (r.recent_team, r.season, r.week))).dedup

/-- Rows of one (recent_team, season, week) group. -/
def teamWeekGroup (data : List WeeklyRow) (k : String × Int × Int) : List WeeklyRow :=
  data.filter (fun r => decide ((r.recent_team, r.season, r.week) = k))

/-- The `pgstats` frame of `import_seasonal_data`: group by
(recent_team, season, week) and sum the eight passing-volume columns,
renaming them to `atts`, `comps`, `p_yds`, `p_tds`, `p_ayds`, `p_yac`,
`p_fds`, `ppr_pts`. -/
def pgstats (data : List WeeklyRow) : List TeamWeekAgg :=
  (teamWeekKeys data).map (fun k =>
    { recent_team := k.1
      season := k.2.1
      week := k.2.2
      atts := ((teamWeekGroup data k).map (fun r => r.attempts)).sum
      comps := ((teamWeekGroup data k).map (fun r => r.completions)).sum
      p_yds := ((teamWeekGroup data k).map (fun r => r.passing_yards)).sum
      p_tds := ((teamWeekGroup data k).map (fun r => r.passing_tds)).sum
      p_ayds := ((teamWeekGroup data k).map (fun r => r.passing_air_yards)).sum
      p_yac := ((teamWeekGroup data k).map (fun r => r.passing_yards_after_catch)).sum
      p_fds := ((teamWeekGroup data k).map (fun r => r.passing_first_downs)).sum
      ppr_pts := ((teamWeekGroup data k).map (fun r => r.fantasy_points_ppr)).sum })

/-- One row of the `all_stats` frame: the selected player columns of a
weekly row, left-joined with the `pgstats` aggregate for the row's
(recent_team, season, week), unmatched aggregates filled with zero. -/
structure AllStatsRow where
  player_id : String
  player_name : String
  recent_team : String
  season : Int
  week : Int
  carries : ℚ
  rushing_yards : ℚ
  rushing_tds : ℚ
  rushing_first_downs : ℚ
  rushing_2pt_conversions : ℚ
  receptions : ℚ
  targets : ℚ
  receiving_yards : ℚ
  receiving_tds : ℚ
  receiving_air_yards : ℚ
  receiving_yards_after_catch : ℚ
  receiving_first_downs : ℚ
  receiving_epa : ℚ
  fantasy_points_ppr : ℚ
  atts : ℚ
  comps : ℚ
  p_yds : ℚ
  p_tds : ℚ
  p_ayds : ℚ
  p_yac : ℚ
  p_fds : ℚ
  ppr_pts : ℚ
deriving DecidableEq

/-- The `all_stats` frame: every (filtered) weekly row merged `how='left'`
with `pgstats` on (recent_team, season, week) and `.fillna(0)`. -/
def all_stats (data : List WeeklyRow) : List AllStatsRow :=
  data.map (fun r =>
    match (pgstats data).find?
        (fun g => decide (g.recent_team = r.recent_team ∧ g.season = r.season ∧ g.week = r.week)) with
    | some g =>
      { player_id := r.player_id, player_name := r.player_name
        recent_team := r.recent_team, season := r.season, week := r.week
        carries := r.carries, rushing_yards := r.rushing_yards
        rushing_tds := r.rushing_tds, rushing_first_downs := r.rushing_first_downs
        rushing_2pt_conversions := r.rushing_2pt_conversions
        receptions := r.receptions, targets := r.targets
        receiving_yards := r.receiving_yards, receiving_tds := r.receiving_tds
        receiving_air_yards := r.receiving_air_yards
        receiving_yards_after_catch := r.receiving_yards_after_catch
        receiving_first_downs := r.receiving_first_downs
        receiving_epa := r.receiving_epa
        fantasy_points_ppr := r.fantasy_points_ppr
        atts := g.atts, comps := g.comps, p_yds := g.p_yds, p_tds := g.p_tds
        p_ayds := g.p_ayds, p_yac := g.p_yac, p_fds := g.p_fds, ppr_pts := g.ppr_pts }
    | none =>
      { player_id := r.player_id, player_name := r.player_name
        recent_team := r.recent_team, season := r.season, week := r.week
        carries := r.carries, rushing_yards := r.rushing_yards
        rushing_tds := r.rushing_tds, rushing_first_downs := r.rushing_first_downs
        rushing_2pt_conversions := r.rushing_2pt_conversions
        receptions := r.receptions, targets := r.targets
        receiving_yards := r.receiving_yards, receiving_tds := r.receiving_tds
        receiving_air_yards := r.receiving_air_yards
        receiving_yards_after_catch := r.receiving_yards_after_catch
        receiving_first_downs := r.receiving_first_downs
        receiving_epa := r.receiving_epa
        fantasy_points_ppr := r.fantasy_points_ppr
        atts := 0, comps := 0, p_yds := 0, p_tds := 0
        p_ayds := 0, p_yac := 0, p_fds := 0, ppr_pts := 0 })

/-- Season totals per (player_id, season): the `season_stats` frame right
after `.drop(['recent_team', 'week'], axis=1).groupby(['player_id',
'season']).sum(numeric_only=True)`, before the derived metrics are added. -/
structure SeasonTotals where
  player_id : String
  season : Int
  carries : ℚ
  rushing_yards : ℚ
  rushing_tds : ℚ
  rushing_first_downs : ℚ
  rushing_2pt_conversions : ℚ
  receptions : ℚ
  targets : ℚ
  receiving_yards : ℚ
  receiving_tds : ℚ
  receiving_air_yards : ℚ
  receiving_yards_after_catch : ℚ
  receiving_first_downs : ℚ
  receiving_epa : ℚ
  fantasy_points_ppr : ℚ
  atts : ℚ
  comps : ℚ
  p_yds : ℚ
  p_tds : ℚ
  p_ayds : ℚ
  p_yac : ℚ
  p_fds : ℚ
  ppr_pts : ℚ
deriving DecidableEq

/-- Group keys of the `season_stats` groupby: the distinct
(player_id, season) pairs of `all_stats`. -/
def seasonKeys (data : List WeeklyRow) : List (String × Int) :=
  ((all_stats data).map (fun r => (r.player_id, r.season))).dedup

/-- Rows of one (player_id, season) group of `all_stats`. -/
def seasonGroup (data : List WeeklyRow) (k : String × Int) : List AllStatsRow :=
  (all_stats data).filter (fun r => decide ((r.player_id, r.season) = k))

/-- The season totals of `season_stats`: sum every numeric column of
`all_stats` per (player_id, season). -/
def season_totals (data : List WeeklyRow) : List SeasonTotals :=
  (seasonKeys data).map (fun k =>
    { player_id := k.1
      season := k.2
      carries := ((seasonGroup data k).map (fun r => r.carries)).sum
      rushing_yards := ((seasonGroup data k).map (fun r => r.rushing_yards)).sum
      rushing_tds := ((seasonGroup data k).map (fun r => r.rushing_tds)).sum
      rushing_first_downs := ((seasonGroup data k).map (fun r => r.rushing_first_downs)).sum
      rushing_2pt_conversions := ((seasonGroup data k).map (fun r => r.rushing_2pt_conversions)).sum
      receptions := ((seasonGroup data k).map (fun r => r.receptions)).sum
      targets := ((seasonGroup data k).map (fun r => r.targets)).sum
      receiving_yards := ((seasonGroup data k).map (fun r => r.receiving_yards)).sum
      receiving_tds := ((seasonGroup data k).map (fun r => r.receiving_tds)).sum
      receiving_air_yards := ((seasonGroup data k).map (fun r => r.receiving_air_yards)).sum
      receiving_yards_after_catch := ((seasonGroup data k).map (fun r => r.receiving_yards_after_catch)).sum
      receiving_first_downs := ((seasonGroup data k).map (fun r => r.receiving_first_downs)).sum
      receiving_epa := ((seasonGroup data k).map (fun r => r.receiving_epa)).sum
      fantasy_points_ppr := ((seasonGroup data k).map (fun r => r.fantasy_points_ppr)).sum
      atts := ((seasonGroup data k).map (fun r => r.atts)).sum
      comps := ((seasonGroup data k).map (fun r => r.comps)).sum
      p_yds := ((seasonGroup data k).map (fun r => r.p_yds)).sum
      p_tds := ((seasonGroup data k).map (fun r => r.p_tds)).sum
      p_ayds := ((seasonGroup data k).map (fun r => r.p_ayds)).sum
      p_yac := ((seasonGroup data k).map (fun r => r.p_yac)).sum
      p_fds := ((seasonGroup data k).map (fun r => r.p_fds)).sum
      ppr_pts := ((seasonGroup data k).map (fun r => r.ppr_pts)).sum })

/-- The twelve derived ratio metric columns added to `season_stats`. -/
structure SeasonMetrics where
  tgt_sh : FVal
  ay_sh : FVal
  yac_sh : FVal
  wopr : FVal
  ry_sh : FVal
  rtd_sh : FVal
  rfd_sh : FVal
  rtdfd_sh : FVal
  dom : FVal
  w8dom : FVal
  yptmpa : FVal
  ppr_sh : FVal
deriving DecidableEq

/-- The custom receiving-stat computation of `import_seasonal_data`
(lines assigning `tgt_sh` through `ppr_sh`), with pandas float division
modelled by `FVal.div`.  The float literals `1.5`, `0.8`, `0.2` are
modelled by the exact rationals they denote in the source text. -/
def calcMetrics (t : SeasonTotals) : SeasonMetrics :=
  let tgt_sh := FVal.div (.fin t.targets) (.fin t.atts)
  let ay_sh := FVal.div (.fin t.receiving_air_yards) (.fin t.p_ayds)
  let yac_sh := FVal.div (.fin t.receiving_yards_after_catch) (.fin t.p_yac)
  let wopr := FVal.add (FVal.mul tgt_sh (.fin (3 / 2))) (FVal.mul ay_sh (.fin (4 / 5)))
  let ry_sh := FVal.div (.fin t.receiving_yards) (.fin t.p_yds)
  let rtd_sh := FVal.div (.fin t.receiving_tds) (.fin t.p_tds)
  let rfd_sh := FVal.div (.fin t.receiving_first_downs) (.fin t.p_fds)
  let rtdfd_sh := FVal.div (.fin (t.receiving_tds + t.receiving_first_downs))
      (.fin (t.p_tds + t.p_fds))
  let dom := FVal.div (FVal.add ry_sh rtd_sh) (.fin 2)
  let w8dom := FVal.add (FVal.mul ry_sh (.fin (4 / 5))) (FVal.mul rtd_sh (.fin (1 / 5)))
  let yptmpa := FVal.div (.fin t.receiving_yards) (.fin t.atts)
  let ppr_sh := FVal.div (.fin t.fantasy_points_ppr) (.fin t.ppr_pts)
  { tgt_sh := tgt_sh, ay_sh := ay_sh, yac_sh := yac_sh, wopr := wopr
    ry_sh := ry_sh, rtd_sh := rtd_sh, rfd_sh := rfd_sh, rtdfd_sh := rtdfd_sh
    dom := dom, w8dom := w8dom, yptmpa := yptmpa, ppr_sh := ppr_sh }

/-- The finished `season_stats` frame: season totals paired with their
derived metric columns. -/
def season_stats (data : List WeeklyRow) : List (SeasonTotals × SeasonMetrics) :=
  (season_totals data).map (fun t => (t, calcMetrics t))

/-- Metric columns attached to a (player_id, season) key by the final
`how='left'` merge of `szn` with `season_stats`; a missing key yields the
all-NaN row a left merge produces. -/
def metricsFor (data : List WeeklyRow) (pid : String) (sz : Int) : SeasonMetrics :=
  match (season_stats data).find?
      (fun ts => decide (ts.1.player_id = pid ∧ ts.1.season = sz)) with
  | some ts => ts.2
  | none =>
    { tgt_sh := .nan, ay_sh := .nan, yac_sh := .nan, wopr := .nan
      ry_sh := .nan, rtd_sh := .nan, rfd_sh := .nan, rtdfd_sh := .nan
      dom := .nan, w8dom := .nan, yptmpa := .nan, ppr_sh := .nan }

/-- The `games` column: row count of the filtered data per
(player_id, season) (a groupby-count of `season_type`). -/
def gamesCount (data : List WeeklyRow) (pid : String) (sz : Int) : Nat :=
  (data.filter (fun r => decide (r.player_id = pid ∧ r.season = sz))).length

/-- One row of the final `szn` frame returned by `import_seasonal_data`:
keyed by (player_id, season, season_type), with summed numeric columns,
the games count, and the merged metric columns. -/
structure SznRow where
  player_id : String
  season : Int
  season_type : String
  attempts : ℚ
  completions : ℚ
  passing_yards : ℚ
  passing_tds : ℚ
  passing_air_yards : ℚ
  passing_yards_after_catch : ℚ
  passing_first_downs : ℚ
  carries : ℚ
  rushing_yards : ℚ
  rushing_tds : ℚ
  rushing_first_downs : ℚ
  rushing_2pt_conversions : ℚ
  receptions : ℚ
  targets : ℚ
  receiving_yards : ℚ
  receiving_tds : ℚ
  receiving_air_yards : ℚ
  receiving_yards_after_catch : ℚ
  receiving_first_downs : ℚ
  receiving_epa : ℚ
  fantasy_points_ppr : ℚ
  games : Nat
  tgt_sh : FVal
  ay_sh : FVal
  yac_sh : FVal
  wopr : FVal
  ry_sh : FVal
  rtd_sh : FVal
  rfd_sh : FVal
  rtdfd_sh : FVal
  dom : FVal
  w8dom : FVal
  yptmpa : FVal
  ppr_sh : FVal
deriving DecidableEq

/-- Group keys of the final `szn` groupby: the distinct
(player_id, season, season_type) triples of the filtered data. -/
def sznKeys (data : List WeeklyRow) : List (String × Int × String) :=
  (data.map (fun r => (r.player_id, r.season, r.season_type))).dedup

/-- Rows of one (player_id, season, season_type) group. -/
def sznGroup (data : List WeeklyRow) (k : String × Int × String) : List WeeklyRow :=
  data.filter (fun r => decide ((r.player_id, r.season, r.season_type) = k))

/-- One output row of `szn` for a given group key. -/
def mkSznRow (data : List WeeklyRow) (k : String × Int × String) : SznRow :=
  let m := metricsFor data k.1 k.2.1
  { player_id := k.1
    season := k.2.1
    season_type := k.2.2
    attempts := ((sznGroup data k).map (fun r => r.attempts)).sum
    completions := ((sznGroup data k).map (fun r => r.completions)).sum
    passing_yards := ((sznGroup data k).map (fun r => r.passing_yards)).sum
    passing_tds := ((sznGroup data k).map (fun r => r.passing_tds)).sum
    passing_air_yards := ((sznGroup data k).map (fun r => r.passing_air_yards)).sum
    passing_yards_after_catch := ((sznGroup data k).map (fun r => r.passing_yards_after_catch)).sum
    passing_first_downs := ((sznGroup data k).map (fun r => r.passing_first_downs)).sum
    carries := ((sznGroup data k).map (fun r => r.carries)).sum
    rushing_yards := ((sznGroup data k).map (fun r => r.rushing_yards)).sum
    rushing_tds := ((sznGroup data k).map (fun r => r.rushing_tds)).sum
    rushing_first_downs := ((sznGroup data k).map (fun r => r.rushing_first_downs)).sum
    rushing_2pt_conversions := ((sznGroup data k).map (fun r => r.rushing_2pt_conversions)).sum
    receptions := ((sznGroup data k).map (fun r => r.receptions)).sum
    targets := ((sznGroup data k).map (fun r => r.targets)).sum
    receiving_yards := ((sznGroup data k).map (fun r => r.receiving_yards)).sum
    receiving_tds := ((sznGroup data k).map (fun r => r.receiving_tds)).sum
    receiving_air_yards := ((sznGroup data k).map (fun r => r.receiving_air_yards)).sum
    receiving_yards_after_catch := ((sznGroup data k).map (fun r => r.receiving_yards_after_catch)).sum
    receiving_first_downs := ((sznGroup data k).map (fun r => r.receiving_first_downs)).sum
    receiving_epa := ((sznGroup data k).map (fun r => r.receiving_epa)).sum
    fantasy_points_ppr := ((sznGroup data k).map (fun r => r.fantasy_points_ppr)).sum
    games := gamesCount data k.1 k.2.1
    tgt_sh := m.tgt_sh, ay_sh := m.ay_sh, yac_sh := m.yac_sh, wopr := m.wopr
    ry_sh := m.ry_sh, rtd_sh := m.rtd_sh, rfd_sh := m.rfd_sh, rtdfd_sh := m.rtdfd_sh
    dom := m.dom, w8dom := m.w8dom, yptmpa := m.yptmpa, ppr_sh := m.ppr_sh }

/-- The table-level core of `import_seasonal_data` (everything after the
per-year parquet reads are concatenated): filter to the requested season
type, build the team-week aggregates, join, sum to season totals, compute
derived metrics, and assemble the final `szn` frame grouped by
(player_id, season, season_type) with the games count and the metrics
merged on (player_id, season). -/
def import_seasonal_data (rawData : List WeeklyRow) (s_type : String) : List SznRow :=
  let data := filterSeasonType s_type rawData
  (sznKeys data).map (mkSznRow data)

/-!
The multi-year fetch-merge-concatenate pipeline of `import_pbp_data` and
`import_weekly_data`.  A remote per-year parquet read is modelled by a
function from the year to its parsed rows (`Except` for the paths that can
observe failures).  The play-by-play row keeps the columns the pipeline
touches (join keys, the season column) plus an opaque payload standing for
all remaining columns.
-/

/-- One parsed play-by-play row: the join keys used by the participation
merge, the `season` column, and an opaque payload for every other column. -/
structure PbpRow where
  play_id : Nat
  game_id : String
  season : Int
  payload : ℚ
deriving DecidableEq

/-- One parsed participation row: its join keys and an opaque payload for
the participation columns. -/
structure PartRow where
  play_id : Nat
  nflverse_game_id : String
  part_payload : ℚ
deriving DecidableEq

/-- One row after the optional participation merge: the primary row plus,
when a participation row matched, its columns (`none` models the NaN /
absent participation columns of an unmatched or skipped merge). -/
structure MergedRow where
  base : PbpRow
  part : Option PartRow
deriving DecidableEq

/-- The ingestion-time season assignment `raw['season'] = year`. -/
def setSeason (year : Int) (r : PbpRow) : PbpRow :=
  { r with season := year }

/-- The pandas `merge(partic, how='left', left_on=['play_id','game_id'],
right_on=['play_id','nflverse_game_id'])`: every primary row paired with
each matching participation row, or kept alone when none matches. -/
def leftJoinPart (rows : List PbpRow) (partic : List PartRow) : List MergedRow :=
  rows.flatMap (fun r =>
    match partic.filter
        (fun p => decide (p.play_id = r.play_id ∧ p.nflverse_game_id = r.game_id)) with
    | [] => [{ base := r, part := none }]
    | ms => ms.map (fun p => { base := r, part := some p }))

/-- The body of one iteration of the sequential per-year loop of
`import_pbp_data` (non-cache mode): read the year's parquet, assign the
season column, and, when participation is requested, read the secondary
dataset and left-join it, silently skipping the merge when that read
fails with an HTTP error.  A failed primary read contributes no rows
(the soft-failure policy). -/
def yearRows (remote : Int → Except String (List PbpRow))
    (partRemote : Int → Except Unit (List PartRow))
    (include_participation : Bool) (year : Int) : List MergedRow :=
  match remote year with
  | .error _ => []
  | .ok rows =>
    let raw := rows.map (setSeason year)
    if include_participation then
      match partRemote year with
      | .ok partic => leftJoinPart raw partic
      | .error _ => raw.map (fun r => { base := r, part := none })
    else raw.map (fun r => { base := r, part := none })

/-- Console output of one iteration of the sequential loop: the exception
text and the diagnostic notice on failure, the completion notice on
success. -/
def yearLog (remote : Int → Except String (List PbpRow)) (year : Int) : List String :=
  match remote year with
  | .error e => [e, "Data not available for " ++ toString year]
  | .ok _ => [toString year ++ " done."]

/-- Accumulated rows and console log of the sequential loop. -/
structure SeqResult where
  rows : List MergedRow
  log : List String
deriving DecidableEq

/-- One iteration of the sequential per-year loop (the body of the
`for year in years` / `try` / `except` block), threading the accumulated
rows and console log. -/
def pbpStep (remote : Int → Except String (List PbpRow))
    (partRemote : Int → Except Unit (List PartRow))
    (include_participation : Bool) (acc : SeqResult) (year : Int) : SeqResult :=
  match remote year with
  | .error e =>
    { rows := acc.rows
      log := acc.log ++ [e, "Data not available for " ++ toString year] }
  | .ok rows =>
    let raw := rows.map (setSeason year)
    let merged :=
      if include_participation then
        match partRemote year with
        | .ok partic => leftJoinPart raw partic
        | .error _ => raw.map (fun r => { base := r, part := none })
      else raw.map (fun r => { base := r, part := none })
    { rows := acc.rows ++ merged
      log := acc.log ++ [toString year ++ " done."] }

/-- The sequential (non-threaded, non-cache) per-year loop of
`import_pbp_data`: for each requested year in order, try the primary read
plus season assignment plus optional participation merge, append the
year's rows on success, and on failure print the exception and the
diagnostic notice and continue with the remaining years. -/
def import_pbp_sequential (remote : Int → Except String (List PbpRow))
    (partRemote : Int → Except Unit (List PartRow))
    (include_participation : Bool) (years : List Int) : SeqResult :=
  years.foldl (pbpStep remote partRemote include_participation)
    { rows := [], log := [] }

/-- The result-slot mechanism of the `ThreadPoolExecutor` branch: a
pre-sized list of `none` slots, each completed future writing its result
into the slot of its year index; `order` is the completion order of the
futures. -/
def fillSlots {α : Type} (results : Nat → α) (order : List Nat)
    (slots : List (Option α)) : List (Option α) :=
  order.foldl (fun acc i => acc.set i (some (results i))) slots

/-- Reassembly of the threaded fetch: fill the `n` slots in completion
order, then concatenate the per-year frames in slot (requested-year)
order. -/
def assemble {α : Type} (results : Nat → List α) (n : Nat) (order : List Nat) : List α :=
  ((fillSlots results order (List.replicate n none)).map (fun o => o.getD [])).flatten

/-- The `thread_requests=True` branch of `import_pbp_data` (non-cache):
one `pandas.read_parquet` per year submitted to the pool, results written
into the slot of the year's index in completion order, then concatenated.
Note the branch performs no season assignment and no participation merge. -/
def import_pbp_threaded (remote : Int → List PbpRow) (years : List Int)
    (order : List Nat) : List PbpRow :=
  assemble (fun i => remote (years.getD i 0)) years.length order

/-- One parsed weekly player-stats row for the fetch-level claims: the
weekly fetch pipeline is schema-agnostic, so the row is opaque here. -/
structure WRow where
  wseason : Int
  wpayload : ℚ
deriving DecidableEq

/-- The sequential branch of `import_weekly_data`:
`pandas.concat([pandas.read_parquet(url.format(x)) for x in years])`. -/
def import_weekly_sequential (remote : Int → List WRow) (years : List Int) : List WRow :=
  (years.map remote).flatten

/-- The `thread_requests=True` branch of `import_weekly_data`: one read
per year submitted to the pool, results written into the slot of the
year's index in completion order, then concatenated. -/
def import_weekly_threaded (remote : Int → List WRow) (years : List Int)
    (order : List Nat) : List WRow :=
  assemble (fun i => remote (years.getD i 0)) years.length order

/-!
Argument validation and the traced entry point of `import_pbp_data`
(sequential non-cache path), used for the fail-before-network claim.
-/

/-- The dynamic `years` argument of the Python entry points: a list, a
`range(start, stop)`, or a value of any other type. -/
inductive YearsInput where
  | ofList (l : List Int) : YearsInput
  | ofRange (start stop : Int) : YearsInput
  | notListOrRange : YearsInput
deriving DecidableEq

/-- Materialized year collection of a `years` argument (`none` when the
argument is neither a list nor a range). -/
def YearsInput.toYears : YearsInput → Option (List Int)
  | .ofList l => some l
  | .ofRange a b => some ((List.range (b - a).toNat).map (fun i => a + i))
  | .notListOrRange => none

/-- The argument checks at the top of `import_pbp_data`: reject a
non-list/range argument, then reject when `min(years)` precedes 1999
(Python's `min` itself failing on an empty collection). -/
def pbpValidate (input : YearsInput) : Except String (List Int) :=
  match input.toYears with
  | none => .error "Input must be list or range."
  | some l =>
    match l.min? with
    | none => .error "min() arg is an empty sequence"
    | some m =>
      if m < 1999 then .error "Data not available before 1999."
      else .ok l

/-- The `import_pbp_data` entry point (sequential, non-cache path):
validate the `years` argument, then run the per-year loop.  The second
component records which years the pipeline issued network reads for, so
that fail-before-network behaviour is observable. -/
def import_pbp_data (remote : Int → Except String (List PbpRow))
    (partRemote : Int → Except Unit (List PartRow))
    (include_participation : Bool) (input : YearsInput) :
    Except String SeqResult × List Int :=
  match pbpValidate input with
  | .error e => (.error e, [])
  | .ok years =>
    (.ok (import_pbp_sequential remote partRemote include_participation years), years)

/-!
The downcast step and the tail of `import_pbp_data` (empty-result early
return, concatenation, optional downcast), modelled at column granularity
because downcasting is a per-column dtype operation.
-/

/-- Pandas column dtype, restricted to the kinds the downcast step
distinguishes. -/
inductive Dtype where
  | float64 : Dtype
  | float32 : Dtype
  | int64 : Dtype
  | strDtype : Dtype
deriving DecidableEq

/-- One cell of a column: a numeric value or a string. -/
inductive Cell where
  | num (q : ℚ) : Cell
  | str (s : String) : Cell
deriving DecidableEq

/-- One named, typed column of a pandas DataFrame. -/
structure DCol where
  name : String
  dtype : Dtype
  vals : List Cell
deriving DecidableEq

/-- A pandas DataFrame at column granularity. -/
abbrev DFrame := List DCol

/-- The value conversion of `astype(numpy.float32)` on one cell, for an
abstract narrowing function `cast` on the numeric contents. -/
def castCell (cast : ℚ → ℚ) : Cell → Cell
  | .num q => .num (cast q)
  | .str s => .str s

/-- The effect of the downcast assignment on one column: a float64 column
becomes float32 with narrowed values, every other column is untouched
(`select_dtypes(include=[numpy.float64])` selects only float64 columns). -/
def downcastCol (cast : ℚ → ℚ) (c : DCol) : DCol :=
  if c.dtype = .float64 then
    { c with dtype := .float32, vals := c.vals.map (castCell cast) }
  else c

/-- The downcast step of `import_pbp_data` / `import_weekly_data`:
`cols = plays.select_dtypes(include=[numpy.float64]).columns;
plays[cols] = plays[cols].astype(numpy.float32)`. -/
def downcastFloats (cast : ℚ → ℚ) (df : DFrame) : DFrame :=
  df.map (downcastCol cast)

/-- Row-wise concatenation of same-schema frames (`pandas.concat`),
aligning trailing frames' columns by name with the first frame. -/
def dconcat (dfs : List DFrame) : DFrame :=
  match dfs with
  | [] => []
  | f :: rest =>
    f.map (fun c =>
      { c with vals := c.vals ++ rest.flatMap (fun g =>
          match g.find? (fun c2 => decide (c2.name = c.name)) with
          | some c2 => c2.vals
          | none => []) })

/-- The per-year accumulation of `pbp_data` at frame granularity: each
successful year's frame is appended, failed years are skipped. -/
def collectPbp (remote : Int → Except String DFrame) (years : List Int) : List DFrame :=
  years.foldl (fun acc y =>
    match remote y with
    | .ok f => acc ++ [f]
    | .error _ => acc) []

/-- The tail of `import_pbp_data`: `if not pbp_data: return
pandas.DataFrame()`, else concatenate and, when `downcast` is set,
downcast the float64 columns. -/
def pbpFinalize (cast : ℚ → ℚ) (pbp_data : List DFrame) (downcast : Bool) : DFrame :=
  if pbp_data.isEmpty then []
  else
    let plays := dconcat pbp_data
    if downcast then downcastFloats cast plays else plays

/-!
Concrete inputs used by the counterexamples, scenario checks and
witnesses.
-/

/-- A weekly row with every stat zero, used as a base for the concrete
inputs below. -/
def zeroWeeklyRow : WeeklyRow :=
  { player_id := "", player_name := "", recent_team := "A"
    season := 2020, week := 1, season_type := "REG"
    attempts := 0, completions := 0, passing_yards := 0, passing_tds := 0
    passing_air_yards := 0, passing_yards_after_catch := 0, passing_first_downs := 0
    carries := 0, rushing_yards := 0, rushing_tds := 0, rushing_first_downs := 0
    rushing_2pt_conversions := 0, receptions := 0, targets := 0
    receiving_yards := 0, receiving_tds := 0, receiving_air_yards := 0
    receiving_yards_after_catch := 0, receiving_first_downs := 0
    receiving_epa := 0, fantasy_points_ppr := 0 }

/-- A regular-season week of player p1. -/
def regWeekRow : WeeklyRow :=
  { zeroWeeklyRow with player_id := "p1", player_name := "P One", week := 1
                       season_type := "REG", targets := 3 }

/-- A postseason week of the same player p1 in the same season. -/
def postWeekRow : WeeklyRow :=
  { zeroWeeklyRow with player_id := "p1", player_name := "P One", week := 19
                       season_type := "POST", targets := 2 }

/-- A week whose team recorded zero pass attempts while the player has
positive targets: the zero-denominator, positive-numerator case. -/
def zeroAttemptsRow : WeeklyRow :=
  { zeroWeeklyRow with player_id := "p1", player_name := "P One"
                       attempts := 0, targets := 20 }

/-- The synthetic passer of the spec scenario: 100 attempts,
50 completions, 300 passing air yards. -/
def scenarioPasser : WeeklyRow :=
  { zeroWeeklyRow with player_id := "qb1", player_name := "QB"
                       attempts := 100, completions := 50, passing_air_yards := 300 }

/-- The synthetic receiver of the spec scenario: 20 targets,
300 receiving air yards. -/
def scenarioReceiver : WeeklyRow :=
  { zeroWeeklyRow with player_id := "wr1", player_name := "WR"
                       targets := 20, receiving_air_yards := 300 }

/-- A remote play-by-play feed whose stored rows carry season 1999
regardless of which year's partition is requested (the stored `season`
column disagrees with the partition year). -/
def storedSeasonRemote : Int → List PbpRow :=
  fun _ => [{ play_id := 1, game_id := "g1", season := 1999, payload := 0 }]

/-- A fallible view of `storedSeasonRemote` in which every year
succeeds. -/
def storedSeasonRemoteOk : Int → Except String (List PbpRow) :=
  fun y => .ok (storedSeasonRemote y)

/-- A participation feed that is unavailable (HTTP error) for every
year. -/
def partUnavailable : Int → Except Unit (List PartRow) :=
  fun _ => .error ()

/-- A remote play-by-play feed that fails for 2020 with an HTTP error and
succeeds for every other year. -/
def failing2020Remote : Int → Except String (List PbpRow) :=
  fun y =>
    if y = 2020 then .error "HTTP Error 404: Not Found."
    else .ok [{ play_id := 7, game_id := "g7", season := 0, payload := 1 }]

/-- A weekly feed producing one row per year, tagged with the year. -/
def weeklyOneRowRemote : Int → List WRow :=
  fun y => [{ wseason := y, wpayload := 3 }]

/-- A play-by-play feed whose stored rows already carry the partition
year in their season column. -/
def yearTaggedPbpRemote : Int → List PbpRow :=
  fun y => [{ play_id := 1, game_id := "g1", season := y, payload := 0 }]

/-- A remote play-by-play frame source (column granularity) that fails
for every year. -/
def allFailFrameRemote : Int → Except String DFrame :=
  fun _ => .error "HTTP Error 404: Not Found."

/-- A remote play-by-play feed with one row for 2020 (stored season 1999)
and an HTTP failure for every other year. -/
def oneRow2020Remote : Int → Except String (List PbpRow) :=
  fun y =>
    if y = 2020 then
      .ok [{ play_id := 1, game_id := "g1", season := 1999, payload := 5 }]
    else .error "HTTP Error 404: Not Found."

/-- Season totals with every aggregate zero except 20 targets: the
zero-denominator, positive-numerator season. -/
def zeroDenomTotals : SeasonTotals :=
  { player_id := "p1", season := 2020
    carries := 0, rushing_yards := 0, rushing_tds := 0, rushing_first_downs := 0
    rushing_2pt_conversions := 0, receptions := 0, targets := 20
    receiving_yards := 0, receiving_tds := 0, receiving_air_yards := 0
    receiving_yards_after_catch := 0, receiving_first_downs := 0
    receiving_epa := 0, fantasy_points_ppr := 0
    atts := 0, comps := 0, p_yds := 0, p_tds := 0
    p_ayds := 0, p_yac := 0, p_fds := 0, ppr_pts := 0 }

/-- Behaviour of an IEEE float division with zero denominator: NaN when
the numerator is also zero, signed infinity otherwise. -/
def divByZeroVal (num : ℚ) : FVal :=
  if num = 0 then .nan else .inf (decide (0 < num))

/-!
Metric formulas transcribed from the specification text (section 4.2,
step 5), for the refinement comparison of claim C5.  Each is written
exactly as the spec states it, to be compared with `calcMetrics`.
-/

/-- Spec formula: target share = targets / team attempts. -/
def specTargetShare (t : SeasonTotals) : FVal :=
  FVal.div (.fin t.targets) (.fin t.atts)

/-- Spec formula: air-yards share = receiving air yards / team passing
air yards. -/
def specAirYardsShare (t : SeasonTotals) : FVal :=
  FVal.div (.fin t.receiving_air_yards) (.fin t.p_ayds)

/-- Spec formula: yards-after-catch share = receiving YAC / team YAC. -/
def specYacShare (t : SeasonTotals) : FVal :=
  FVal.div (.fin t.receiving_yards_after_catch) (.fin t.p_yac)

/-- Spec formula: WOPR = 1.5 × target share + 0.8 × air-yards share. -/
def specWopr (t : SeasonTotals) : FVal :=
  FVal.add (FVal.mul (.fin (3 / 2)) (specTargetShare t))
    (FVal.mul (.fin (4 / 5)) (specAirYardsShare t))

/-- Spec formula: receiving-yards share = receiving yards / team passing
yards. -/
def specRecYardsShare (t : SeasonTotals) : FVal :=
  FVal.div (.fin t.receiving_yards) (.fin t.p_yds)

/-- Spec formula: receiving-TD share = receiving TDs / team passing TDs. -/
def specRecTdShare (t : SeasonTotals) : FVal :=
  FVal.div (.fin t.receiving_tds) (.fin t.p_tds)

/-- Spec formula: receiving first-down share = receiving first downs /
team passing first downs. -/
def specRecFdShare (t : SeasonTotals) : FVal :=
  FVal.div (.fin t.receiving_first_downs) (.fin t.p_fds)

/-- Spec formula: combined TD+first-down share = (receiving TDs +
receiving first downs) / (team passing TDs + team passing first downs). -/
def specRtdFdShare (t : SeasonTotals) : FVal :=
  FVal.div (.fin (t.receiving_tds + t.receiving_first_downs))
    (.fin (t.p_tds + t.p_fds))

/-- Spec formula: dominator rating = (receiving-yards share +
receiving-TD share) / 2. -/
def specDom (t : SeasonTotals) : FVal :=
  FVal.div (FVal.add (specRecYardsShare t) (specRecTdShare t)) (.fin 2)

/-- Spec formula: weighted dominator = 0.8 × receiving-yards share +
0.2 × receiving-TD share. -/
def specW8dom (t : SeasonTotals) : FVal :=
  FVal.add (FVal.mul (.fin (4 / 5)) (specRecYardsShare t))
    (FVal.mul (.fin (1 / 5)) (specRecTdShare t))

/-- Spec formula: yards per team pass attempt = receiving yards / team
attempts. -/
def specYptmpa (t : SeasonTotals) : FVal :=
  FVal.div (.fin t.receiving_yards) (.fin t.atts)

/-- Spec formula: PPR share = player PPR fantasy points / team PPR
fantasy points. -/
def specPprShare (t : SeasonTotals) : FVal :=
  FVal.div (.fin t.fantasy_points_ppr) (.fin t.ppr_pts)

/-!
Support lemmas about the sequential loop, the slot mechanism and list
bookkeeping, shared by several claims.
-/

/-- One loop iteration appends exactly the year's rows and the year's log
lines onto the accumulator. -/
theorem pbpStep_eq (remote : Int → Except String (List PbpRow))
    (partRemote : Int → Except Unit (List PartRow)) (ip : Bool)
    (acc : SeqResult) (y : Int) :
    pbpStep remote partRemote ip acc y
      = { rows := acc.rows ++ yearRows remote partRemote ip y
          log := acc.log ++ yearLog remote y } := by
  cases hy : remote y <;> simp [pbpStep, yearRows, yearLog, hy]

/-- The sequential loop is the concatenation, in requested order, of the
per-year rows and the per-year log lines. -/
theorem import_pbp_sequential_eq (remote : Int → Except String (List PbpRow))
    (partRemote : Int → Except Unit (List PartRow)) (ip : Bool) (years : List Int) :
    import_pbp_sequential remote partRemote ip years
      = { rows := years.flatMap (yearRows remote partRemote ip)
          log := years.flatMap (yearLog remote) } := by
  have key : ∀ (ys : List Int) (acc : SeqResult),
      ys.foldl (pbpStep remote partRemote ip) acc
        = { rows := acc.rows ++ ys.flatMap (yearRows remote partRemote ip)
            log := acc.log ++ ys.flatMap (yearLog remote) } := by
    intro ys
    induction ys with
    | nil => intro acc; simp
    | cons y ys ih =>
      intro acc
      rw [List.foldl_cons, pbpStep_eq, ih]
      simp
  have h := key years { rows := [], log := [] }
  simpa [import_pbp_sequential] using h

/-- Elements whose image is empty can be dropped from a `flatMap`. -/
theorem flatMap_eq_filter_flatMap {α β : Type} (l : List α) (p : α → Bool)
    (f : α → List β) (h : ∀ a ∈ l, p a = false → f a = []) :
    l.flatMap f = (l.filter p).flatMap f := by
  induction l with
  | nil => simp
  | cons a l ih =>
    have ih' := ih (fun x hx hpx => h x (List.mem_cons_of_mem _ hx) hpx)
    cases hp : p a with
    | true => simp [List.filter_cons, hp, ih']
    | false =>
      have ha : f a = [] := h a (List.mem_cons_self a l) hp
      simp [List.filter_cons, hp, ha, ih']

/-- A column that is not float64 passes the downcast step untouched. -/
theorem downcastCol_of_ne (cast : ℚ → ℚ) (c : DCol) (h : c.dtype ≠ Dtype.float64) :
    downcastCol cast c = c := by
  simp [downcastCol, h]

/-- The per-column downcast step is idempotent: a float64 column becomes
float32 and is skipped on the second pass. -/
theorem downcastCol_idem (cast : ℚ → ℚ) (c : DCol) :
    downcastCol cast (downcastCol cast c) = downcastCol cast c := by
  by_cases h : c.dtype = Dtype.float64
  · simp [downcastCol, h]
  · simp [downcastCol, h]

/-!
Claims C9, C10, C7, C8.
-/

/-- C9: the downcast step narrows only float64 columns and is idempotent —
applying it twice equals applying it once, a table with no float64 column
is left entirely unchanged, integer and string columns are never modified
by the per-column step, and no float64 column survives a pass. -/
theorem claim_C9_downcast_idempotent (cast : ℚ → ℚ) (df : DFrame) :
    downcastFloats cast (downcastFloats cast df) = downcastFloats cast df
    ∧ ((∀ c ∈ df, c.dtype ≠ Dtype.float64) → downcastFloats cast df = df)
    ∧ (∀ c : DCol, c.dtype = Dtype.int64 ∨ c.dtype = Dtype.strDtype →
        downcastCol cast c = c)
    ∧ (∀ c ∈ downcastFloats cast df, c.dtype ≠ Dtype.float64) := by
  refine ⟨?_, ?_, ?_, ?_⟩
  · unfold downcastFloats
    rw [List.map_map]
    exact List.map_congr_left (fun c _ => downcastCol_idem cast c)
  · intro h
    unfold downcastFloats
    have hmap : ∀ c ∈ df, downcastCol cast c = c :=
      fun c hc => downcastCol_of_ne cast c (h c hc)
    rw [List.map_congr_left hmap]
    simp
  · intro c hc
    apply downcastCol_of_ne
    rcases hc with h | h <;> simp [h]
  · intro c hc
    unfold downcastFloats at hc
    rw [List.mem_map] at hc
    obtain ⟨c0, _, rfl⟩ := hc
    by_cases h : c0.dtype = Dtype.float64 <;> simp [downcastCol, h]

/-- Witness for C9: a frame with one integer and one string column is left
unchanged by the downcast step. -/
theorem claim_C9_downcast_idempotent_witness :
    downcastFloats (fun q => q)
        [{ name := "ids", dtype := Dtype.int64, vals := [Cell.num 1] },
         { name := "label", dtype := Dtype.strDtype, vals := [Cell.str "a"] }]
      = [{ name := "ids", dtype := Dtype.int64, vals := [Cell.num 1] },
         { name := "label", dtype := Dtype.strDtype, vals := [Cell.str "a"] }] :=
  (claim_C9_downcast_idempotent (fun q => q) _).2.1 (by decide)

/-- C10: when the fetch fails for every requested year, the accumulated
per-year frame list is empty and `import_pbp_data` returns the empty
table for either downcast flag — the early return fires before the
downcast step, so the result does not depend on the flag. -/
theorem claim_C10_all_fail_empty (cast : ℚ → ℚ)
    (remote : Int → Except String DFrame) (years : List Int) (dc : Bool)
    (h : ∀ y ∈ years, ∃ e, remote y = Except.error e) :
    collectPbp remote years = []
    ∧ pbpFinalize cast (collectPbp remote years) dc = []
    ∧ pbpFinalize cast (collectPbp remote years) dc
        = pbpFinalize cast (collectPbp remote years) false := by
  have key : ∀ (ys : List Int) (acc : List DFrame),
      (∀ y ∈ ys, ∃ e, remote y = Except.error e) →
      ys.foldl (fun acc y =>
        match remote y with
        | .ok f => acc ++ [f]
        | .error _ => acc) acc = acc := by
    intro ys
    induction ys with
    | nil => intro acc _; rfl
    | cons y ys ih =>
      intro acc hall
      obtain ⟨e, he⟩ := hall y (List.mem_cons_self y ys)
      rw [List.foldl_cons]
      simp only [he]
      exact ih acc (fun z hz => hall z (List.mem_cons_of_mem _ hz))
  have hc : collectPbp remote years = [] := key years [] h
  refine ⟨hc, ?_, ?_⟩ <;> simp [pbpFinalize, hc]

/-- Witness for C10: with a feed failing for both requested years, the
pipeline returns the empty frame. -/
theorem claim_C10_all_fail_empty_witness :
    pbpFinalize (fun q => q) (collectPbp allFailFrameRemote [2020, 2021]) true = [] :=
  (claim_C10_all_fail_empty (fun q => q) allFailFrameRemote [2020, 2021] true
    (fun _ _ => ⟨"HTTP Error 404: Not Found.", rfl⟩)).2.1

/-- C7: a `years` argument that is not a list or range, or whose minimum
precedes 1999, makes `import_pbp_data` fail with the invalid-argument
error while the network trace stays empty — no fetch is issued. -/
theorem claim_C7_validation_before_network
    (remote : Int → Except String (List PbpRow))
    (partRemote : Int → Except Unit (List PartRow)) (ip : Bool) :
    import_pbp_data remote partRemote ip YearsInput.notListOrRange
        = (Except.error "Input must be list or range.", [])
    ∧ ∀ (l : List Int) (m : Int), l.min? = some m → m < 1999 →
        import_pbp_data remote partRemote ip (YearsInput.ofList l)
          = (Except.error "Data not available before 1999.", []) := by
  constructor
  · rfl
  · intro l m hm hlt
    simp [import_pbp_data, pbpValidate, YearsInput.toYears, hm, hlt]

/-- Witness for C7: requesting years [1998] raises the range error with an
empty network trace. -/
theorem claim_C7_validation_before_network_witness :
    import_pbp_data (fun _ => Except.ok []) (fun _ => Except.ok []) true
        (YearsInput.ofList [1998])
      = (Except.error "Data not available before 1999.", []) :=
  (claim_C7_validation_before_network _ _ _).2 [1998] 1998 rfl (by decide)

/-- C8: when the participation dataset is unavailable (HTTP error) for a
year whose primary fetch succeeded, the merge is skipped silently: the
year's rows are all returned with season assigned and no participation
columns, no error is raised, and the loop logs the normal completion
notice for the year. -/
theorem claim_C8_participation_skip
    (remote : Int → Except String (List PbpRow))
    (partRemote : Int → Except Unit (List PartRow)) (year : Int)
    (rows : List PbpRow) (hok : remote year = Except.ok rows)
    (hpart : partRemote year = Except.error ()) :
    yearRows remote partRemote true year
        = rows.map (fun r => { base := setSeason year r, part := none })
    ∧ (import_pbp_sequential remote partRemote true [year]).rows
        = rows.map (fun r => { base := setSeason year r, part := none })
    ∧ (import_pbp_sequential remote partRemote true [year]).log
        = [toString year ++ " done."] := by
  have h1 : yearRows remote partRemote true year
      = rows.map (fun r => { base := setSeason year r, part := none }) := by
    simp [yearRows, hok, hpart, List.map_map]
  refine ⟨h1, ?_, ?_⟩
  · rw [import_pbp_sequential_eq]
    simp [h1]
  · rw [import_pbp_sequential_eq]
    simp [yearLog, hok]

/-- Witness for C8: a 2020 fetch with unavailable participation returns
the primary row with its season overwritten to 2020 and no participation
columns. -/
theorem claim_C8_participation_skip_witness :
    (import_pbp_sequential oneRow2020Remote partUnavailable true [2020]).rows
      = [{ base := { play_id := 1, game_id := "g1", season := 2020, payload := 5 }
           part := none }] := by
  have h := (claim_C8_participation_skip oneRow2020Remote partUnavailable 2020
    [{ play_id := 1, game_id := "g1", season := 1999, payload := 5 }]
    (by rfl) rfl).2.1
  rw [h]
  rfl

/-!
Support lemmas for the soft-failure, season-assignment and thread-mode
claims.
-/

/-- A year whose primary read fails contributes no rows. -/
theorem yearRows_of_error (remote : Int → Except String (List PbpRow))
    (partRemote : Int → Except Unit (List PartRow)) (ip : Bool) (y : Int)
    (e : String) (he : remote y = Except.error e) :
    yearRows remote partRemote ip y = [] := by
  simp [yearRows, he]

/-- Every row produced by the participation left join keeps its primary
row as base. -/
theorem mem_leftJoinPart_base (rows : List PbpRow) (partic : List PartRow)
    (r : MergedRow) (h : r ∈ leftJoinPart rows partic) : r.base ∈ rows := by
  unfold leftJoinPart at h
  rw [List.mem_flatMap] at h
  obtain ⟨a, ha, hr⟩ := h
  cases hfil : partic.filter
      (fun p => decide (p.play_id = a.play_id ∧ p.nflverse_game_id = a.game_id)) with
  | nil =>
    rw [hfil] at hr
    simp at hr
    rw [hr]
    exact ha
  | cons p ps =>
    rw [hfil] at hr
    simp only [List.mem_map] at hr
    obtain ⟨p1, _, hp1⟩ := hr
    rw [← hp1]
    exact ha

/-- Every row a year contributes carries that year in its season column
(the sequential ingestion assigns it). -/
theorem yearRows_season (remote : Int → Except String (List PbpRow))
    (partRemote : Int → Except Unit (List PartRow)) (ip : Bool) (y : Int)
    (r : MergedRow) (h : r ∈ yearRows remote partRemote ip y) :
    r.base.season = y := by
  cases hy : remote y with
  | error e =>
    simp [yearRows, hy] at h
  | ok rows =>
    simp only [yearRows, hy] at h
    by_cases hip : ip
    · simp only [if_pos hip] at h
      cases hp : partRemote y with
      | ok partic =>
        simp only [hp] at h
        have hbase := mem_leftJoinPart_base _ _ _ h
        rw [List.mem_map] at hbase
        obtain ⟨r0, _, hr0⟩ := hbase
        rw [← hr0]
        simp [setSeason]
      | error e =>
        simp only [hp, List.mem_map] at h
        obtain ⟨r0, hr0mem, hr0⟩ := h
        obtain ⟨a, _, ha⟩ := hr0mem
        rw [← hr0, ← ha]
        simp [setSeason]
    · simp only [if_neg hip, List.mem_map] at h
      obtain ⟨r0, hr0mem, hr0⟩ := h
      obtain ⟨a, _, ha⟩ := hr0mem
      rw [← hr0, ← ha]
      simp [setSeason]

/-- A row whose season column already equals the year is unchanged by the
season assignment. -/
theorem setSeason_eq_self (y : Int) (r : PbpRow) (h : r.season = y) :
    setSeason y r = r := by
  cases r
  simp_all [setSeason]

/-- Filling slots preserves the slot count. -/
theorem fillSlots_length {α : Type} (results : Nat → α) (order : List Nat) :
    ∀ (slots : List (Option α)), (fillSlots results order slots).length = slots.length := by
  unfold fillSlots
  induction order with
  | nil => intro slots; rfl
  | cons j l ih =>
    intro slots
    rw [List.foldl_cons, ih, List.length_set]

/-- Contents of a slot after the fill: written when its index completed,
untouched otherwise; slots at the same index always receive the same
value, so completion order is irrelevant. -/
theorem fillSlots_getElem? {α : Type} (results : Nat → α) (order : List Nat) (i : Nat) :
    ∀ (slots : List (Option α)), i < slots.length →
      (fillSlots results order slots)[i]?
        = if i ∈ order then some (some (results i)) else slots[i]? := by
  unfold fillSlots
  induction order with
  | nil =>
    intro slots _
    simp
  | cons j l ih =>
    intro slots hi
    rw [List.foldl_cons, ih (slots.set j (some (results j))) (by simpa using hi)]
    by_cases hij : i = j
    · subst hij
      by_cases hil : i ∈ l
      · simp [hil]
      · simp [hil, List.getElem?_set_self hi]
    · have hset : (slots.set j (some (results j)))[i]? = slots[i]? :=
        List.getElem?_set_ne (fun hh => hij hh.symm)
      simp [List.mem_cons, hij, hset]

/-- When every slot index appears in the completion order, the filled
slots are exactly the per-index results in index order. -/
theorem fillSlots_replicate {α : Type} (results : Nat → α) (n : Nat) (order : List Nat)
    (h : ∀ i, i < n → i ∈ order) :
    fillSlots results order (List.replicate n (none : Option α))
      = (List.range n).map (fun i => some (results i)) := by
  apply List.ext_getElem?
  intro i
  by_cases hi : i < n
  · rw [fillSlots_getElem? results order i _ (by simpa using hi)]
    simp [h i hi, List.getElem?_range hi]
  · have h1 : (fillSlots results order (List.replicate n (none : Option α))).length = n := by
      rw [fillSlots_length, List.length_replicate]
    rw [List.getElem?_eq_none (by omega), List.getElem?_eq_none (by simpa using Nat.le_of_not_lt hi)]

/-- The reassembled threaded result equals the per-year frames
concatenated in requested order, for every completion order covering all
indices. -/
theorem assemble_eq {α : Type} (results : Nat → List α) (n : Nat) (order : List Nat)
    (h : ∀ i, i < n → i ∈ order) :
    assemble results n order = ((List.range n).map results).flatten := by
  unfold assemble
  rw [fillSlots_replicate results n order h, List.map_map]
  congr 1

/-- Indexing a list by its range of positions recovers a plain map. -/
theorem map_getD_range {α β : Type} (f : α → β) (d : α) :
    ∀ (l : List α), (List.range l.length).map (fun i => f (l.getD i d)) = l.map f := by
  intro l
  induction l with
  | nil => simp
  | cons a l ih =>
    rw [List.length_cons, List.range_succ_eq_map, List.map_cons, List.map_map]
    simp only [List.getD_cons_zero, List.map_cons, List.cons.injEq]
    refine ⟨by trivial, ?_⟩
    rw [← ih]
    apply List.map_congr_left
    intro i _
    simp [Function.comp, List.getD_cons_succ]

/-!
Claims C6, C4 and C1.
-/

/-- C6: in the sequential play-by-play loop, a year whose fetch fails is
omitted — the result is exactly the concatenation of the successful
years' rows — and for every failed year the exception text and the
"Data not available" diagnostic notice are logged while the remaining
years keep being processed (the loop is total, it never aborts). -/
theorem claim_C6_soft_failure (remote : Int → Except String (List PbpRow))
    (partRemote : Int → Except Unit (List PartRow)) (ip : Bool) (years : List Int) :
    (import_pbp_sequential remote partRemote ip years).rows
      = (years.filter (fun y => (remote y).isOk)).flatMap (yearRows remote partRemote ip)
    ∧ ∀ y ∈ years, ∀ e, remote y = Except.error e →
        e ∈ (import_pbp_sequential remote partRemote ip years).log
        ∧ ("Data not available for " ++ toString y)
            ∈ (import_pbp_sequential remote partRemote ip years).log := by
  rw [import_pbp_sequential_eq]
  constructor
  · apply flatMap_eq_filter_flatMap
    intro y _ hfalse
    cases hy : remote y with
    | error e => exact yearRows_of_error remote partRemote ip y e hy
    | ok rows => exact absurd hfalse (by simp [hy, Except.isOk, Except.toBool])
  · intro y hy e he
    constructor
    · exact List.mem_flatMap.mpr ⟨y, hy, by simp [yearLog, he]⟩
    · exact List.mem_flatMap.mpr ⟨y, hy, by simp [yearLog, he]⟩

/-- Witness for C6: with 2020 failing and 2021 succeeding, the diagnostic
notice for 2020 appears in the log. -/
theorem claim_C6_soft_failure_witness :
    ("Data not available for " ++ toString (2020 : Int))
      ∈ (import_pbp_sequential failing2020Remote partUnavailable true [2020, 2021]).log :=
  ((claim_C6_soft_failure failing2020Remote partUnavailable true [2020, 2021]).2
    2020 (by decide) "HTTP Error 404: Not Found." rfl).2

/-- C4 (amended): in the sequential path every returned row carries the
year of the partition it was sourced from in its season column, and the
distinct season values of the result are exactly the requested years that
contributed at least one row.  The thread_requests path does not assign
the season column (see the counterexample). -/
theorem claim_C4_season_assignment (remote : Int → Except String (List PbpRow))
    (partRemote : Int → Except Unit (List PartRow)) (ip : Bool) (years : List Int) :
    (∀ (y : Int) (r : MergedRow), r ∈ yearRows remote partRemote ip y → r.base.season = y)
    ∧ ((import_pbp_sequential remote partRemote ip years).rows.map
          (fun r => r.base.season)).toFinset
        = (years.filter
            (fun y => decide (yearRows remote partRemote ip y ≠ []))).toFinset := by
  refine ⟨fun y r h => yearRows_season remote partRemote ip y r h, ?_⟩
  rw [import_pbp_sequential_eq]
  ext s
  simp only [List.mem_toFinset, List.mem_map, List.mem_flatMap, List.mem_filter,
    decide_eq_true_eq]
  constructor
  · rintro ⟨r, ⟨y, hy, hr⟩, hs⟩
    have hseason := yearRows_season remote partRemote ip y r hr
    rw [hs] at hseason
    subst hseason
    exact ⟨hy, List.ne_nil_of_mem hr⟩
  · rintro ⟨hy, hne⟩
    obtain ⟨r, hr⟩ := List.exists_mem_of_ne_nil _ hne
    exact ⟨r, ⟨s, hy, hr⟩, yearRows_season remote partRemote ip s r hr⟩

/-- Witness for C4: the 2020 partition row, whose stored season was 1999,
carries season 2020 in the sequential result. -/
theorem claim_C4_season_assignment_witness :
    ({ base := { play_id := 1, game_id := "g1", season := 2020, payload := 5 }
       part := none } : MergedRow).base.season = 2020 :=
  (claim_C4_season_assignment oneRow2020Remote partUnavailable true [2020]).1 2020
    { base := { play_id := 1, game_id := "g1", season := 2020, payload := 5 }
      part := none } (by decide)

/-- Counterexample for C4 as stated: in the thread_requests path the
season column is not assigned during ingestion, so a 2020 fetch whose
source file stores season 1999 returns a row with season 1999 ≠ 2020,
and the distinct season values are not the fetched years. -/
theorem claim_C4_counterexample :
    import_pbp_threaded storedSeasonRemote [2020] [0]
        = [{ play_id := 1, game_id := "g1", season := 1999, payload := 0 }]
    ∧ ((1999 : Int) ≠ 2020) := by
  constructor
  · decide
  · decide

/-- C1 (amended): for every completion order that is a permutation of the
year indices, the threaded and sequential weekly fetches agree exactly;
the threaded play-by-play fetch agrees with the sequential one only under
extra conditions — participation disabled and every source row already
carrying its partition year as season — because the threaded branch skips
the season assignment and the participation merge (see the
counterexample). -/
theorem claim_C1_thread_equivalence :
    (∀ (wremote : Int → List WRow) (years : List Int) (order : List Nat),
        order.Perm (List.range years.length) →
        import_weekly_threaded wremote years order
          = import_weekly_sequential wremote years)
    ∧ (∀ (rmRows : Int → List PbpRow) (partRemote : Int → Except Unit (List PartRow))
          (years : List Int) (order : List Nat),
        order.Perm (List.range years.length) →
        (∀ y ∈ years, ∀ r ∈ rmRows y, r.season = y) →
        (import_pbp_sequential (fun y => Except.ok (rmRows y)) partRemote false
            years).rows.map (fun r => r.base)
          = import_pbp_threaded rmRows years order) := by
  constructor
  · intro wremote years order hperm
    have hmem : ∀ i, i < years.length → i ∈ order := fun i hi =>
      hperm.mem_iff.mpr (List.mem_range.mpr hi)
    unfold import_weekly_threaded
    rw [assemble_eq _ _ _ hmem, map_getD_range wremote 0 years]
    rfl
  · intro rmRows partRemote years order hperm hseason
    have hmem : ∀ i, i < years.length → i ∈ order := fun i hi =>
      hperm.mem_iff.mpr (List.mem_range.mpr hi)
    have hyr : ∀ y ∈ years,
        (yearRows (fun y => Except.ok (rmRows y)) partRemote false y).map
            (fun r => r.base)
          = rmRows y := by
      intro y hy
      show ((((rmRows y).map (setSeason y)).map
          (fun r => ({ base := r, part := none } : MergedRow))).map
            (fun r => r.base)) = rmRows y
      rw [List.map_map, List.map_map]
      refine (List.map_congr_left ?_).trans (List.map_id _)
      intro r hr
      simp [Function.comp, setSeason_eq_self y r (hseason y hy r hr)]
    rw [import_pbp_sequential_eq]
    simp only [List.map_flatMap]
    unfold import_pbp_threaded
    rw [assemble_eq _ _ _ hmem, map_getD_range rmRows 0 years]
    rw [List.flatMap_def]
    congr 1
    exact List.map_congr_left hyr

/-- Witness for C1: two years fetched with reversed completion order
agree with the sequential fetch (weekly always; play-by-play with
participation off and year-tagged source rows). -/
theorem claim_C1_thread_equivalence_witness :
    import_weekly_threaded weeklyOneRowRemote [2020, 2021] [1, 0]
        = import_weekly_sequential weeklyOneRowRemote [2020, 2021]
    ∧ (import_pbp_sequential (fun y => Except.ok (yearTaggedPbpRemote y))
          partUnavailable false [2020, 2021]).rows.map (fun r => r.base)
        = import_pbp_threaded yearTaggedPbpRemote [2020, 2021] [1, 0] :=
  ⟨claim_C1_thread_equivalence.1 weeklyOneRowRemote [2020, 2021] [1, 0] (by decide),
   claim_C1_thread_equivalence.2 yearTaggedPbpRemote partUnavailable [2020, 2021] [1, 0]
     (by decide) (by decide)⟩

/-- Counterexample for C1 as stated: with identical remote data and no
fetch failures, the sequential and threaded play-by-play paths disagree —
the sequential path overwrites the season column with the partition year
while the threaded path returns the stored value. -/
theorem claim_C1_counterexample :
    ([0] : List Nat).Perm (List.range 1)
    ∧ (import_pbp_sequential storedSeasonRemoteOk partUnavailable false
          [2020]).rows.map (fun r => r.base)
        ≠ import_pbp_threaded storedSeasonRemote [2020] [0] := by
  constructor
  · decide
  · decide

/-!
Support lemmas for the seasonal-rollup claims.
-/

/-- Counting occurrences of a fixed value in a duplicate-free list gives
one when present, zero otherwise. -/
theorem countP_decide_eq_of_nodup {α : Type} [DecidableEq α] :
    ∀ (l : List α), l.Nodup → ∀ (c : α),
      l.countP (fun a => decide (a = c)) = if c ∈ l then 1 else 0 := by
  intro l
  induction l with
  | nil => intro _ c; simp
  | cons a l ih =>
    intro hnd c
    rw [List.nodup_cons] at hnd
    obtain ⟨ha, hnd2⟩ := hnd
    by_cases hac : a = c
    · subst hac
      rw [List.countP_cons_of_pos _ _ (by simp)]
      have h0 : l.countP (fun x => decide (x = a)) = 0 := by
        rw [List.countP_eq_zero]
        intro x hx
        simp only [decide_eq_true_eq]
        intro hxa
        exact ha (hxa ▸ hx)
      simp [h0, List.mem_cons]
    · rw [List.countP_cons_of_neg _ _ (by simp [hac])]
      rw [ih hnd2 c]
      have hca : ¬c = a := fun h => hac h.symm
      by_cases hcl : c ∈ l <;> simp [List.mem_cons, hcl, hca]

/-- Everything surviving the non-ALL season-type filter carries the
requested season type. -/
theorem filterSeasonType_mem_season_type (s_type : String) (hs : s_type ≠ "ALL")
    (rawData : List WeeklyRow) (r : WeeklyRow)
    (hr : r ∈ filterSeasonType s_type rawData) : r.season_type = s_type := by
  unfold filterSeasonType at hr
  rw [if_neg hs, List.mem_filter] at hr
  simpa using hr.2

/-- The final groupby keys are duplicate-free. -/
theorem sznKeys_nodup (data : List WeeklyRow) : (sznKeys data).Nodup := by
  unfold sznKeys
  exact List.nodup_dedup _

/-!
Claims C2, C3 and C5.
-/

/-- C2 (amended): the seasonal rollup is keyed by (player_id, season,
season_type) — each such triple appears at most once — and for a non-ALL
season type every (player_id, season) pair with at least one qualifying
weekly row appears in exactly one output row.  With s_type = 'ALL' a
player with rows of several season types appears once per season type
(see the counterexample). -/
theorem claim_C2_key_uniqueness (rawData : List WeeklyRow) (s_type pid : String)
    (sz : Int) :
    (∀ st : String,
        (import_seasonal_data rawData s_type).countP
            (fun r => decide (r.player_id = pid ∧ r.season = sz ∧ r.season_type = st))
          ≤ 1)
    ∧ (s_type ≠ "ALL" →
        (∃ r ∈ filterSeasonType s_type rawData, r.player_id = pid ∧ r.season = sz) →
        (import_seasonal_data rawData s_type).countP
            (fun r => decide (r.player_id = pid ∧ r.season = sz)) = 1) := by
  constructor
  · intro st
    show ((sznKeys (filterSeasonType s_type rawData)).map
        (mkSznRow (filterSeasonType s_type rawData))).countP _ ≤ 1
    rw [List.countP_map]
    have hfun : ∀ k ∈ sznKeys (filterSeasonType s_type rawData),
        ((fun r : SznRow =>
            decide (r.player_id = pid ∧ r.season = sz ∧ r.season_type = st))
          ∘ mkSznRow (filterSeasonType s_type rawData)) k
          = (fun k : String × Int × String => decide (k = (pid, sz, st))) k := by
      intro k _
      show decide (k.1 = pid ∧ k.2.1 = sz ∧ k.2.2 = st) = decide (k = (pid, sz, st))
      rw [decide_eq_decide]
      constructor
      · rintro ⟨h1, h2, h3⟩
        exact Prod.ext h1 (Prod.ext h2 h3)
      · rintro rfl
        exact ⟨rfl, rfl, rfl⟩
    rw [List.countP_congr (fun x hx => by rw [hfun x hx])]
    rw [countP_decide_eq_of_nodup _ (sznKeys_nodup _) _]
    split <;> simp
  · intro hne hex
    obtain ⟨r, hr, hpid, hsz⟩ := hex
    show ((sznKeys (filterSeasonType s_type rawData)).map
        (mkSznRow (filterSeasonType s_type rawData))).countP _ = 1
    rw [List.countP_map]
    have hst : ∀ k ∈ sznKeys (filterSeasonType s_type rawData), k.2.2 = s_type := by
      intro k hk
      unfold sznKeys at hk
      rw [List.mem_dedup, List.mem_map] at hk
      obtain ⟨r0, hr0, hk0⟩ := hk
      rw [← hk0]
      exact filterSeasonType_mem_season_type s_type hne rawData r0 hr0
    have hfun : ∀ k ∈ sznKeys (filterSeasonType s_type rawData),
        ((fun r : SznRow => decide (r.player_id = pid ∧ r.season = sz))
          ∘ mkSznRow (filterSeasonType s_type rawData)) k
          = (fun k : String × Int × String => decide (k = (pid, sz, s_type))) k := by
      intro k hk
      show decide (k.1 = pid ∧ k.2.1 = sz) = decide (k = (pid, sz, s_type))
      rw [decide_eq_decide]
      constructor
      · rintro ⟨h1, h2⟩
        exact Prod.ext h1 (Prod.ext h2 (hst k hk))
      · rintro rfl
        exact ⟨rfl, rfl⟩
    rw [List.countP_congr (fun x hx => by rw [hfun x hx])]
    rw [countP_decide_eq_of_nodup _ (sznKeys_nodup _) _]
    have hmem : (pid, sz, s_type) ∈ sznKeys (filterSeasonType s_type rawData) := by
      unfold sznKeys
      rw [List.mem_dedup, List.mem_map]
      refine ⟨r, hr, ?_⟩
      rw [hpid, hsz, filterSeasonType_mem_season_type s_type hne rawData r hr]
    rw [if_pos hmem]

/-- Witness for C2 (amended): player p1 with one REG week appears in
exactly one row of the REG rollup. -/
theorem claim_C2_key_uniqueness_witness :
    (import_seasonal_data [regWeekRow, postWeekRow] "REG").countP
        (fun r => decide (r.player_id = "p1" ∧ r.season = 2020)) = 1 :=
  (claim_C2_key_uniqueness [regWeekRow, postWeekRow] "REG" "p1" 2020).2
    (by decide) ⟨regWeekRow, by decide, by decide, by decide⟩

/-- Counterexample for C2 as stated: with s_type = 'ALL', a player with a
REG row and a POST row in the same season appears in two output rows for
that (player_id, season), not one — the final groupby also keys on
season_type. -/
theorem claim_C2_counterexample :
    (regWeekRow ∈ filterSeasonType "ALL" [regWeekRow, postWeekRow]
        ∧ regWeekRow.player_id = "p1" ∧ regWeekRow.season = 2020)
    ∧ (import_seasonal_data [regWeekRow, postWeekRow] "ALL").countP
        (fun r => decide (r.player_id = "p1" ∧ r.season = 2020)) = 2 := by
  exact ⟨by decide, by decide⟩

/-- C3 (amended): a derived ratio whose denominator aggregate summed to
zero is never an exception (the operations are total) and never a finite
value: it is the NaN marker when the numerator is also zero and a signed
infinity when the numerator is nonzero, exactly the IEEE behaviour of the
pandas float division. -/
theorem claim_C3_zero_denominator (t : SeasonTotals) :
    (t.atts = 0 → (calcMetrics t).tgt_sh = divByZeroVal t.targets)
    ∧ (t.p_ayds = 0 → (calcMetrics t).ay_sh = divByZeroVal t.receiving_air_yards)
    ∧ (t.p_yac = 0 →
        (calcMetrics t).yac_sh = divByZeroVal t.receiving_yards_after_catch)
    ∧ (t.p_yds = 0 → (calcMetrics t).ry_sh = divByZeroVal t.receiving_yards)
    ∧ (t.p_tds = 0 → (calcMetrics t).rtd_sh = divByZeroVal t.receiving_tds)
    ∧ (t.p_fds = 0 → (calcMetrics t).rfd_sh = divByZeroVal t.receiving_first_downs)
    ∧ (t.p_tds + t.p_fds = 0 →
        (calcMetrics t).rtdfd_sh
          = divByZeroVal (t.receiving_tds + t.receiving_first_downs))
    ∧ (t.atts = 0 → (calcMetrics t).yptmpa = divByZeroVal t.receiving_yards)
    ∧ (t.ppr_pts = 0 → (calcMetrics t).ppr_sh = divByZeroVal t.fantasy_points_ppr)
    ∧ (∀ (num q : ℚ), divByZeroVal num ≠ FVal.fin q) := by
  refine ⟨?_, ?_, ?_, ?_, ?_, ?_, ?_, ?_, ?_, ?_⟩
  · intro h; simp [calcMetrics, FVal.div, divByZeroVal, h]
  · intro h; simp [calcMetrics, FVal.div, divByZeroVal, h]
  · intro h; simp [calcMetrics, FVal.div, divByZeroVal, h]
  · intro h; simp [calcMetrics, FVal.div, divByZeroVal, h]
  · intro h; simp [calcMetrics, FVal.div, divByZeroVal, h]
  · intro h; simp [calcMetrics, FVal.div, divByZeroVal, h]
  · intro h; simp [calcMetrics, FVal.div, divByZeroVal, h]
  · intro h; simp [calcMetrics, FVal.div, divByZeroVal, h]
  · intro h; simp [calcMetrics, FVal.div, divByZeroVal, h]
  · intro num q
    unfold divByZeroVal
    split <;> simp

/-- Witness for C3 (amended): a season with zero team attempts and 20
targets yields positive infinity as target share. -/
theorem claim_C3_zero_denominator_witness :
    (calcMetrics zeroDenomTotals).tgt_sh = FVal.inf true := by
  have h := (claim_C3_zero_denominator zeroDenomTotals).1 rfl
  rw [h]
  decide

/-- Counterexample for C3 as stated: with team attempts summing to zero,
the target share of a receiver with 20 targets is positive infinity, not
the NaN marker (which only arises for a zero numerator, as yptmpa shows
on the same input). -/
theorem claim_C3_counterexample :
    (import_seasonal_data [zeroAttemptsRow] "REG").map (fun r => (r.tgt_sh, r.yptmpa))
        = [(FVal.inf true, FVal.nan)]
    ∧ FVal.inf true ≠ FVal.nan := by
  exact ⟨by decide, by decide⟩

/-- C5: the derived metrics computed by the rollup equal the spec's
arithmetic over the season-summed columns — target share, air-yards
share, YAC share, WOPR, receiving-yards/TD/first-down shares, combined
share, dominator, weighted dominator, yards per team pass attempt and
PPR share — and the synthetic one-team one-week scenario (100-attempt
passer with 300 passing air yards, receiver with 20 targets and 300
receiving air yards) yields target share 1/5 and air-yards share 1 for
the receiver. -/
theorem claim_C5_metric_formulas :
    (∀ t : SeasonTotals,
        calcMetrics t
          = { tgt_sh := specTargetShare t, ay_sh := specAirYardsShare t
              yac_sh := specYacShare t, wopr := specWopr t
              ry_sh := specRecYardsShare t, rtd_sh := specRecTdShare t
              rfd_sh := specRecFdShare t, rtdfd_sh := specRtdFdShare t
              dom := specDom t, w8dom := specW8dom t
              yptmpa := specYptmpa t, ppr_sh := specPprShare t })
    ∧ ((import_seasonal_data [scenarioPasser, scenarioReceiver] "REG").find?
          (fun r => decide (r.player_id = "wr1"))).map (fun r => (r.tgt_sh, r.ay_sh))
        = some (FVal.fin (1 / 5), FVal.fin 1) := by
  constructor
  · intro t
    simp [calcMetrics, specTargetShare, specAirYardsShare, specYacShare, specWopr,
      specRecYardsShare, specRecTdShare, specRecFdShare, specRtdFdShare, specDom,
      specW8dom, specYptmpa, specPprShare, SeasonMetrics.mk.injEq, FVal.mul_commutes]
  · decide

end NflDataPy
